import Mathlib

/-
Verification of the IREE local-HAL task queue core (src/iree/hal/local/task_queue.c).

The development is a shallow embedding of the submit path and the task
lifecycle callbacks.  External collaborators (executor, semaphore layer,
command-buffer layer, arena allocator) are modelled by explicit parameters:
fallible allocations become booleans, external calls become functions that
return a status, and all externally visible effects (semaphore retain and
release, signal, fail, timepoint enqueue, command-buffer issue, executor
submit and flush, arena destruction) are collected in an event trace.
Task records are identified by natural numbers allocated from a base id per
submission, mirroring the single-use arena allocation of task records.
-/

/-- Status returned by fallible operations, mirroring iree_status_t: `ok`
is success and `err` carries an error code (statuses are compared and
cloned only, so a code suffices). -/
inductive Status where
  | ok : Status
  | err : Nat → Status
deriving DecidableEq, Repr

/-- True exactly on `Status.ok`, mirroring iree_status_is_ok. -/
def Status.isOk : Status → Bool
  | Status.ok => true
  | Status.err _ => false

/-- Mirror of iree_hal_semaphore_list_t: a count and two parallel arrays,
semaphore handles (by id) and payload values. -/
structure SemaphoreList where
  count : Nat
  semaphores : List Nat
  payload_values : List Nat
deriving DecidableEq, Repr

/-- Modelled from the spec: the arena allocator (iree_arena_allocator_t,
whose implementation is not among the sources here) is abstracted to the
semaphore lists held by task records that were installed in it and whose
cleanup has not yet run. -/
structure Arena where
  records : List SemaphoreList
deriving DecidableEq, Repr

/-- Externally visible effects of the queue code, recorded in order.  A
timepoint enqueue records the semaphore, the payload value, the completion
task passed down, and the submission arena passed down; a command-buffer
issue records the command buffer and the completion task passed down. -/
inductive Event where
  | retain : Nat → Event
  | release : Nat → Event
  | signal : Nat → Nat → Event
  | fail : Nat → Nat → Event
  | enqueueTimepoint : Nat → Nat → Nat → Arena → Event
  | issueCommandBuffer : Nat → Nat → Event
  | arenaDeinit : Event
  | executorSubmit : Nat → Event
  | executorFlush : Event
deriving DecidableEq, Repr

/-- A semaphore list is well formed when both arrays hold exactly `count`
elements, as the C code assumes when indexing them. -/
def SemaphoreList.WF (l : SemaphoreList) : Prop :=
  l.semaphores.length = l.count ∧ l.payload_values.length = l.count

instance (l : SemaphoreList) : Decidable l.WF := by
  unfold SemaphoreList.WF
  infer_instance

/-- Pairs the first `count` semaphores with their payload values, the
element range the loops in task_queue.c walk. -/
def SemaphoreList.entries (l : SemaphoreList) : List (Nat × Nat) :=
  (l.semaphores.take l.count).zip (l.payload_values.take l.count)

/-- Loop body of iree_hal_semaphore_list_clone (task_queue.c lines 83-87):
copies each semaphore handle and payload value into the target arrays and
retains the semaphore, in index order. -/
def clone_loop : List (Nat × Nat) → List Nat × List Nat × List Event
  | [] => ([], [], [])
  | (s, v) :: rest =>
    let r := clone_loop rest
    (s :: r.1, v :: r.2.1, Event.retain s :: r.2.2)

/-- Shallow embedding of iree_hal_semaphore_list_clone (task_queue.c lines
68-90).  The single arena allocation covering both target arrays is modelled
by `alloc_ok`; when it fails the error is returned before any element has
been copied or any semaphore retained. -/
def iree_hal_semaphore_list_clone (source_list : SemaphoreList)
    (alloc_ok : Bool) : Status × Option SemaphoreList × List Event :=
  if alloc_ok then
    let r := clone_loop source_list.entries
    (Status.ok,
     some { count := source_list.count, semaphores := r.1,
            payload_values := r.2.1 },
     r.2.2)
  else
    (Status.err 1, none, [])

/-- Loop body of iree_hal_semaphore_list_release (task_queue.c lines 93-95). -/
def release_loop : List Nat → List Event
  | [] => []
  | s :: rest => Event.release s :: release_loop rest

/-- Shallow embedding of iree_hal_semaphore_list_release (task_queue.c lines
92-96): releases the first `count` semaphores of the list in order. -/
def iree_hal_semaphore_list_release (list : SemaphoreList) : List Event :=
  release_loop (list.semaphores.take list.count)

/-- Releases the retained semaphore list of every installed record, in
installation order. -/
def release_records : List SemaphoreList → List Event
  | [] => []
  | sl :: rest => iree_hal_semaphore_list_release sl ++ release_records rest

/-- Modelled from the spec: iree_arena_deinitialize on the pre-submission
failure path.  Per the spec, "semaphore retains acquired during cloning are
released by arena destruction invoking cleanup callbacks on already-installed
records"; a record whose list was never cloned holds no retains. -/
def iree_arena_deinit (arena : Arena) : List Event :=
  release_records arena.records ++ [Event.arenaDeinit]

/-- Mirror of iree_hal_task_queue_wait_cmd_t (task_queue.c lines 108-119):
the task record (by id), its completion task (set by SubmitBatch to the
issue task), the submission arena pointer, and the cloned wait list. -/
structure WaitCmd where
  task_id : Nat
  completion_task : Nat
  arena : Arena
  wait_semaphores : SemaphoreList
deriving DecidableEq, Repr

/-- Loop body of iree_hal_task_queue_wait_cmd (task_queue.c lines 129-135):
enqueues one timepoint per wait entry, passing the command's completion
task and the submission arena, and breaks on the first non-ok status.  An
event is recorded for every call that succeeded; the failing call's status
becomes the result. -/
def wait_cmd_loop (completion : Nat) (arena : Arena)
    (enq : Nat → Nat → Status) :
    List (Nat × Nat) → Status × List Event
  | [] => (Status.ok, [])
  | (s, v) :: rest =>
    let st := enq s v
    if st.isOk then
      let r := wait_cmd_loop completion arena enq rest
      (r.1, Event.enqueueTimepoint s v completion arena :: r.2)
    else
      (st, [])

/-- Shallow embedding of iree_hal_task_queue_wait_cmd (task_queue.c lines
122-139).  `enq` stands for iree_hal_task_semaphore_enqueue_timepoint. -/
def iree_hal_task_queue_wait_cmd (cmd : WaitCmd)
    (enq : Nat → Nat → Status) : Status × List Event :=
  wait_cmd_loop cmd.completion_task cmd.arena enq cmd.wait_semaphores.entries

/-- Shallow embedding of iree_hal_task_queue_wait_cmd_cleanup (task_queue.c
lines 143-147): releases the retained wait semaphores. -/
def iree_hal_task_queue_wait_cmd_cleanup (cmd : WaitCmd) : List Event :=
  iree_hal_semaphore_list_release cmd.wait_semaphores

/-- Shallow embedding of iree_hal_task_queue_wait_cmd_allocate (task_queue.c
lines 150-169): allocates the record from the arena, installs the cleanup,
then clones the wait semaphores into the arena.  On clone success the cloned
list is owned by the installed record; on any failure the error is returned
with the arena unchanged (the clone retains nothing when it fails). -/
def iree_hal_task_queue_wait_cmd_allocate (task_id : Nat)
    (wait_semaphores : SemaphoreList) (arena : Arena)
    (record_alloc_ok clone_alloc_ok : Bool) :
    Status × Option WaitCmd × Arena × List Event :=
  if record_alloc_ok then
    match iree_hal_semaphore_list_clone wait_semaphores clone_alloc_ok with
    | (Status.ok, some cloned, evs) =>
      (Status.ok,
       some { task_id := task_id, completion_task := 0,
              arena := { records := arena.records ++ [cloned] },
              wait_semaphores := cloned },
       { records := arena.records ++ [cloned] }, evs)
    | (st, _, evs) => (st, none, arena, evs)
  else
    (Status.err 1, none, arena, [])

/-- Mirror of iree_hal_task_queue_issue_cmd_t (task_queue.c lines 178-193):
the task record (by id), its completion task (the retire task, set at
allocation), and the copied command-buffer array with its count. -/
structure IssueCmd where
  task_id : Nat
  completion_task : Nat
  command_buffer_count : Nat
  command_buffers : List Nat
deriving DecidableEq, Repr

/-- Loop body of iree_hal_task_queue_issue_cmd (task_queue.c lines 207-212):
issues each command buffer with the command's completion task and breaks on
the first non-ok status. -/
def issue_cmd_loop (completion : Nat) (iss : Nat → Status) :
    List Nat → Status × List Event
  | [] => (Status.ok, [])
  | cb :: rest =>
    let st := iss cb
    if st.isOk then
      let r := issue_cmd_loop completion iss rest
      (r.1, Event.issueCommandBuffer cb completion :: r.2)
    else
      (st, [])

/-- Shallow embedding of iree_hal_task_queue_issue_cmd (task_queue.c lines
196-217): when the command-buffer count is positive the buffers are issued
in order; with zero command buffers nothing is done and ok is returned.
`iss` stands for iree_hal_task_command_buffer_issue. -/
def iree_hal_task_queue_issue_cmd (cmd : IssueCmd)
    (iss : Nat → Status) : Status × List Event :=
  if cmd.command_buffer_count > 0 then
    issue_cmd_loop cmd.completion_task iss
      (cmd.command_buffers.take cmd.command_buffer_count)
  else
    (Status.ok, [])

/-- Shallow embedding of iree_hal_task_queue_issue_cmd_cleanup (task_queue.c
lines 221-231): under the queue mutex, resets tail_issue_task to null
exactly when it still equals this task. -/
def iree_hal_task_queue_issue_cmd_cleanup (self_task : Nat)
    (tail_issue_task : Option Nat) : Option Nat :=
  if tail_issue_task = some self_task then none else tail_issue_task

/-- Shallow embedding of iree_hal_task_queue_issue_cmd_allocate (task_queue.c
lines 234-259): allocates the record plus a copy of the first
`command_buffer_count` command-buffer handles from the arena and sets the
completion task to the retire task. -/
def iree_hal_task_queue_issue_cmd_allocate (task_id retire_task : Nat)
    (command_buffer_count : Nat) (command_buffers : List Nat)
    (alloc_ok : Bool) : Status × Option IssueCmd :=
  if alloc_ok then
    (Status.ok,
     some { task_id := task_id, completion_task := retire_task,
            command_buffer_count := command_buffer_count,
            command_buffers := command_buffers.take command_buffer_count })
  else
    (Status.err 1, none)

/-- Mirror of iree_hal_task_queue_retire_cmd_t (task_queue.c lines 269-280):
the task record (by id), its completion task (the fence), the owned
submission arena, and the cloned signal list. -/
structure RetireCmd where
  task_id : Nat
  completion_task : Nat
  arena : Arena
  signal_semaphores : SemaphoreList
deriving DecidableEq, Repr

/-- Loop body of iree_hal_task_queue_retire_cmd (task_queue.c lines 295-300):
signals each semaphore to its payload value and breaks on the first non-ok
status.  An event is recorded per successful signal; a failed signal leaves
the semaphore unchanged and its status becomes the result. -/
def retire_cmd_loop (sig : Nat → Nat → Status) :
    List (Nat × Nat) → Status × List Event
  | [] => (Status.ok, [])
  | (s, v) :: rest =>
    let st := sig s v
    if st.isOk then
      let r := retire_cmd_loop sig rest
      (r.1, Event.signal s v :: r.2)
    else
      (st, [])

/-- Shallow embedding of iree_hal_task_queue_retire_cmd (task_queue.c lines
284-304).  `sig` stands for iree_hal_semaphore_signal. -/
def iree_hal_task_queue_retire_cmd (cmd : RetireCmd)
    (sig : Nat → Nat → Status) : Status × List Event :=
  retire_cmd_loop sig cmd.signal_semaphores.entries

/-- Loop body of the failure branch of iree_hal_task_queue_retire_cmd_cleanup
(task_queue.c lines 317-320): fails every signal semaphore with a clone of
the status (cloning a status preserves its code). -/
def fail_loop (code : Nat) : List Nat → List Event
  | [] => []
  | s :: rest => Event.fail s code :: fail_loop code rest

/-- Shallow embedding of iree_hal_task_queue_retire_cmd_cleanup (task_queue.c
lines 309-330): when the status is non-ok every signal semaphore is failed
with a clone of the status; then all signal-list retains are released; then
the arena is deinitialized.  At this point every record's cleanup has run,
so the final deinitialization only returns memory (no retains remain in the
arena to drop). -/
def iree_hal_task_queue_retire_cmd_cleanup (cmd : RetireCmd)
    (status : Status) : List Event :=
  (match status with
   | Status.ok => []
   | Status.err code =>
     fail_loop code
       (cmd.signal_semaphores.semaphores.take cmd.signal_semaphores.count))
  ++ iree_hal_semaphore_list_release cmd.signal_semaphores
  ++ [Event.arenaDeinit]

/-- Shallow embedding of iree_hal_task_queue_retire_cmd_allocate (task_queue.c
lines 335-371): initializes a fresh arena, allocates the retire record from
it, installs the cleanup, clones the signal semaphores into the arena, and
on success transfers arena ownership to the command.  On failure the arena
is deinitialized; at that point no installed record holds any retains (the
clone retains nothing when it fails). -/
def iree_hal_task_queue_retire_cmd_allocate (task_id : Nat)
    (signal_semaphores : SemaphoreList)
    (record_alloc_ok clone_alloc_ok : Bool) :
    Status × Option RetireCmd × List Event :=
  if record_alloc_ok then
    match iree_hal_semaphore_list_clone signal_semaphores clone_alloc_ok with
    | (Status.ok, some cloned, evs) =>
      (Status.ok,
       some { task_id := task_id, completion_task := 0,
              arena := { records := [cloned] },
              signal_semaphores := cloned },
       evs)
    | (st, _, evs) =>
      (st, none, evs ++ iree_arena_deinit { records := [] })
  else
    (Status.err 1, none, iree_arena_deinit { records := [] })

/-- Mirror of iree_hal_submission_batch_t: wait list, signal list, and the
ordered command-buffer handles with their count. -/
structure Batch where
  wait_semaphores : SemaphoreList
  signal_semaphores : SemaphoreList
  command_buffer_count : Nat
  command_buffers : List Nat
deriving DecidableEq, Repr

/-- Outcomes of the fallible external calls made while building one batch's
DAG: the three arena allocations, the signal/wait clones' allocations, and
the executor fence acquisition. -/
structure FailPlan where
  retire_record_alloc_ok : Bool
  retire_clone_alloc_ok : Bool
  fence_status : Status
  wait_record_alloc_ok : Bool
  wait_clone_alloc_ok : Bool
  issue_alloc_ok : Bool
deriving DecidableEq, Repr

/-- Task-record id of the retire command of the submission based at `base`. -/
def retireTaskId (base : Nat) : Nat := base

/-- Task-record id of the completion fence of the submission based at `base`. -/
def fenceTaskId (base : Nat) : Nat := base + 1

/-- Task-record id of the wait command of the submission based at `base`. -/
def waitTaskId (base : Nat) : Nat := base + 2

/-- Task-record id of the issue command of the submission based at `base`. -/
def issueTaskId (base : Nat) : Nat := base + 3

/-- Result of one SubmitBatch call: the returned status, the queue's
tail_issue_task afterwards, the event trace, every completion edge that was
set (source task, target task) in order, the constructed commands, and the
head task handed to the executor. -/
structure SubmitOutcome where
  status : Status
  tail_issue_task : Option Nat
  events : List Event
  edges : List (Nat × Nat)
  wait_cmd : Option WaitCmd
  issue_cmd : Option IssueCmd
  retire_cmd : Option RetireCmd
  head_task : Option Nat
deriving DecidableEq, Repr

/-- Shallow embedding of iree_hal_task_queue_submit_batch (task_queue.c
lines 417-495).  `tail` is queue->tail_issue_task on entry, `base` names the
task records of this submission, and `plan` fixes the outcome of each
fallible external call.  The completion target of the retire task is set to
the fence even when fence acquisition failed, as in the source (lines
432-435); on any failure after the retire command was allocated the retire
arena is deinitialized and the error returned (lines 457-461); otherwise the
wait task (if any) gets the issue task as completion target, the previous
tail issue task (if any) gets an edge to this issue task under the mutex,
tail_issue_task is set to this issue task, and the head task is submitted. -/
def iree_hal_task_queue_submit_batch (tail : Option Nat) (base : Nat)
    (batch : Batch) (plan : FailPlan) : SubmitOutcome :=
  match iree_hal_task_queue_retire_cmd_allocate (retireTaskId base)
      batch.signal_semaphores plan.retire_record_alloc_ok
      plan.retire_clone_alloc_ok with
  | (st, none, evs) =>
    { status := st, tail_issue_task := tail, events := evs, edges := [],
      wait_cmd := none, issue_cmd := none, retire_cmd := none,
      head_task := none }
  | (_, some retire_cmd0, evs0) =>
    let status1 := plan.fence_status
    let retire_cmd1 : RetireCmd :=
      { retire_cmd0 with completion_task := fenceTaskId base }
    let edges1 : List (Nat × Nat) := [(retireTaskId base, fenceTaskId base)]
    let waitRes :=
      if status1.isOk = true ∧ 0 < batch.wait_semaphores.count then
        iree_hal_task_queue_wait_cmd_allocate (waitTaskId base)
          batch.wait_semaphores retire_cmd1.arena plan.wait_record_alloc_ok
          plan.wait_clone_alloc_ok
      else
        (status1, none, retire_cmd1.arena, [])
    let status2 := waitRes.1
    let wait_cmd0 := waitRes.2.1
    let arena2 := waitRes.2.2.1
    let evs2 := waitRes.2.2.2
    let issueRes :=
      if status2.isOk then
        iree_hal_task_queue_issue_cmd_allocate (issueTaskId base)
          (retireTaskId base) batch.command_buffer_count
          batch.command_buffers plan.issue_alloc_ok
      else
        (status2, none)
    let status3 := issueRes.1
    if status3.isOk then
      let headId :=
        match wait_cmd0 with
        | some _ => waitTaskId base
        | none => issueTaskId base
      let wait_cmd1 := wait_cmd0.map
        (fun wc => { wc with completion_task := issueTaskId base })
      let edgesWait : List (Nat × Nat) :=
        match wait_cmd0 with
        | some _ => [(waitTaskId base, issueTaskId base)]
        | none => []
      let edgesTail : List (Nat × Nat) :=
        match tail with
        | some t => [(t, issueTaskId base)]
        | none => []
      { status := Status.ok,
        tail_issue_task := some (issueTaskId base),
        events := evs0 ++ evs2 ++ [Event.executorSubmit headId],
        edges := edges1 ++ [(issueTaskId base, retireTaskId base)]
          ++ edgesWait ++ edgesTail,
        wait_cmd := wait_cmd1,
        issue_cmd := issueRes.2,
        retire_cmd := some { retire_cmd1 with arena := arena2 },
        head_task := some headId }
    else
      { status := status3, tail_issue_task := tail,
        events := evs0 ++ evs2 ++ iree_arena_deinit arena2,
        edges := edges1, wait_cmd := none, issue_cmd := none,
        retire_cmd := none, head_task := none }

/-- Loop of iree_hal_task_queue_submit (task_queue.c lines 505-509): batches
are processed in order, each paired with the outcomes of its external calls;
the first failing SubmitBatch stops the loop and its status is returned.
Returns (status, tail_issue_task, next base, events). -/
def submit_batches_loop (tail : Option Nat) (base : Nat) :
    List (Batch × FailPlan) → Status × Option Nat × Nat × List Event
  | [] => (Status.ok, tail, base, [])
  | (batch, plan) :: rest =>
    let out := iree_hal_task_queue_submit_batch tail base batch plan
    if out.status.isOk then
      let r := submit_batches_loop out.tail_issue_task (base + 4) rest
      (r.1, r.2.1, r.2.2.1, out.events ++ r.2.2.2)
    else
      (out.status, out.tail_issue_task, base + 4, out.events)

/-- Shallow embedding of iree_hal_task_queue_submit (task_queue.c lines
497-515): processes the batches in order; an error from any SubmitBatch is
returned immediately, without flushing; after all batches succeed the
executor is flushed once and ok is returned. -/
def iree_hal_task_queue_submit (tail : Option Nat) (base : Nat)
    (batches : List (Batch × FailPlan)) :
    Status × Option Nat × List Event :=
  let r := submit_batches_loop tail base batches
  if r.1.isOk then
    (Status.ok, r.2.1, r.2.2.2 ++ [Event.executorFlush])
  else
    (r.1, r.2.1, r.2.2.2)

/-- State of one task queue as far as tail_issue_task tracking is concerned:
the guarded tail pointer, the next fresh task-id base, the issue tasks
created so far, and the issue tasks whose cleanup has run. -/
structure QueueState where
  tail_issue_task : Option Nat
  next_base : Nat
  issued : List Nat
  cleaned : List Nat
deriving DecidableEq, Repr

/-- Queue state right after iree_hal_task_queue_initialize:
tail_issue_task is null and nothing is in flight. -/
def queueInit : QueueState :=
  { tail_issue_task := none, next_base := 0, issued := [], cleaned := [] }

/-- Events that can touch tail_issue_task: a SubmitBatch call, or the
executor running the cleanup of one issue task. -/
inductive QueueOp where
  | submit : Batch → FailPlan → QueueOp
  | cleanupIssue : Nat → QueueOp
deriving DecidableEq, Repr

/-- One step of the queue state machine.  A submit runs SubmitBatch with a
fresh id base (task records are arena-allocated per submission and never
reused while outstanding); a successful submit registers its issue task.  A
cleanup step is possible only for an issue task that exists and whose
cleanup has not already run (the executor runs each task's cleanup exactly
once); it applies iree_hal_task_queue_issue_cmd_cleanup to the tail. -/
def queueStep (s : QueueState) : QueueOp → Option QueueState
  | QueueOp.submit batch plan =>
    let out := iree_hal_task_queue_submit_batch s.tail_issue_task
      s.next_base batch plan
    some { tail_issue_task := out.tail_issue_task,
           next_base := s.next_base + 4,
           issued := if out.status.isOk then
               s.issued ++ [issueTaskId s.next_base]
             else s.issued,
           cleaned := s.cleaned }
  | QueueOp.cleanupIssue t =>
    if t ∈ s.issued ∧ t ∉ s.cleaned then
      some { tail_issue_task :=
               iree_hal_task_queue_issue_cmd_cleanup t s.tail_issue_task,
             next_base := s.next_base,
             issued := s.issued,
             cleaned := s.cleaned ++ [t] }
    else
      none

/-- Runs a sequence of queue operations from a state; `none` when some
operation is not possible. -/
def queueRun (s : QueueState) : List QueueOp → Option QueueState
  | [] => some s
  | op :: ops =>
    match queueStep s op with
    | some s2 => queueRun s2 ops
    | none => none

/-- Target list built by a successful clone of `sl`: same count, the first
`count` semaphores and payload values copied over. -/
def clonedOf (sl : SemaphoreList) : SemaphoreList :=
  { count := sl.count,
    semaphores := (clone_loop sl.entries).1,
    payload_values := (clone_loop sl.entries).2.1 }

/-- The outcome of a successful SubmitBatch call: the DAG built for the
batch, the events emitted, and the updated tail, as a function of the batch
and the queue state only. -/
def submitOkOutcome (tail : Option Nat) (base : Nat) (batch : Batch) :
    SubmitOutcome :=
  { status := Status.ok,
    tail_issue_task := some (issueTaskId base),
    events := (clone_loop batch.signal_semaphores.entries).2.2
      ++ (if 0 < batch.wait_semaphores.count then
            (clone_loop batch.wait_semaphores.entries).2.2
          else [])
      ++ [Event.executorSubmit (if 0 < batch.wait_semaphores.count then
            waitTaskId base else issueTaskId base)],
    edges := [(retireTaskId base, fenceTaskId base),
              (issueTaskId base, retireTaskId base)]
      ++ (if 0 < batch.wait_semaphores.count then
            [(waitTaskId base, issueTaskId base)]
          else [])
      ++ (match tail with
          | some t => [(t, issueTaskId base)]
          | none => []),
    wait_cmd := if 0 < batch.wait_semaphores.count then
        some { task_id := waitTaskId base,
               completion_task := issueTaskId base,
               arena := { records := [clonedOf batch.signal_semaphores,
                                      clonedOf batch.wait_semaphores] },
               wait_semaphores := clonedOf batch.wait_semaphores }
      else none,
    issue_cmd := some { task_id := issueTaskId base,
                        completion_task := retireTaskId base,
                        command_buffer_count := batch.command_buffer_count,
                        command_buffers := batch.command_buffers.take
                          batch.command_buffer_count },
    retire_cmd := some { task_id := retireTaskId base,
                         completion_task := fenceTaskId base,
                         arena := { records :=
                           [clonedOf batch.signal_semaphores]
                             ++ (if 0 < batch.wait_semaphores.count then
                                   [clonedOf batch.wait_semaphores]
                                 else []) },
                         signal_semaphores :=
                           clonedOf batch.signal_semaphores },
    head_task := some (if 0 < batch.wait_semaphores.count then
        waitTaskId base else issueTaskId base) }

/-- The plan in which every external call of SubmitBatch succeeds. -/
def allOkPlan : FailPlan :=
  { retire_record_alloc_ok := true, retire_clone_alloc_ok := true,
    fence_status := Status.ok, wait_record_alloc_ok := true,
    wait_clone_alloc_ok := true, issue_alloc_ok := true }

/-- Invariant of the queue state machine: every issue task created so far
has an id below the fresh base, every cleaned task was created, and the
tail points to a created issue task whose cleanup has not run. -/
def QueueInv (s : QueueState) : Prop :=
  (∀ t ∈ s.issued, t < s.next_base)
  ∧ (∀ t ∈ s.cleaned, t ∈ s.issued)
  ∧ (∀ t, s.tail_issue_task = some t → t ∈ s.issued ∧ t ∉ s.cleaned)

theorem clone_loop_fst (l : List (Nat × Nat)) :
    (clone_loop l).1 = l.map Prod.fst := by
  induction l with
  | nil => rfl
  | cons p rest ih =>
    cases p
    simp [clone_loop, ih]

theorem clone_loop_snd (l : List (Nat × Nat)) :
    (clone_loop l).2.1 = l.map Prod.snd := by
  induction l with
  | nil => rfl
  | cons p rest ih =>
    cases p
    simp [clone_loop, ih]

theorem clone_loop_events (l : List (Nat × Nat)) :
    (clone_loop l).2.2 = l.map (fun p => Event.retain p.1) := by
  induction l with
  | nil => rfl
  | cons p rest ih =>
    cases p
    simp [clone_loop, ih]

theorem release_loop_eq (l : List Nat) :
    release_loop l = l.map Event.release := by
  induction l with
  | nil => rfl
  | cons a rest ih => simp [release_loop, ih]

theorem fail_loop_eq (code : Nat) (l : List Nat) :
    fail_loop code l = l.map (fun s => Event.fail s code) := by
  induction l with
  | nil => rfl
  | cons a rest ih => simp [fail_loop, ih]

theorem entries_length_le (l : SemaphoreList) :
    l.entries.length ≤ l.count := by
  simp only [SemaphoreList.entries, List.length_zip, List.length_take]
  omega

theorem semaphore_list_clone_ok (sl : SemaphoreList) :
    iree_hal_semaphore_list_clone sl true =
      (Status.ok, some (clonedOf sl), (clone_loop sl.entries).2.2) := by
  simp [iree_hal_semaphore_list_clone, clonedOf]

theorem semaphore_list_clone_fail (sl : SemaphoreList) :
    iree_hal_semaphore_list_clone sl false = (Status.err 1, none, []) := by
  simp [iree_hal_semaphore_list_clone]

theorem release_clonedOf (sl : SemaphoreList) :
    iree_hal_semaphore_list_release (clonedOf sl)
      = (sl.entries.map Prod.fst).map Event.release := by
  have hlen : ((clone_loop sl.entries).1).length ≤ sl.count := by
    rw [clone_loop_fst]
    simpa using entries_length_le sl
  simp only [iree_hal_semaphore_list_release, clonedOf]
  rw [List.take_of_length_le hlen, release_loop_eq, clone_loop_fst]

theorem count_retain_map_retain (l : List (Nat × Nat)) (s : Nat) :
    ((l.map fun p => Event.retain p.1).count (Event.retain s))
      = (l.map Prod.fst).count s := by
  induction l with
  | nil => rfl
  | cons p rest ih => simp [List.count_cons, ih]

theorem count_release_map_retain (l : List (Nat × Nat)) (s : Nat) :
    ((l.map fun p => Event.retain p.1).count (Event.release s)) = 0 := by
  induction l with
  | nil => rfl
  | cons p rest ih => simp [List.count_cons, ih]

theorem count_retain_map_release (l : List Nat) (s : Nat) :
    ((l.map Event.release).count (Event.retain s)) = 0 := by
  induction l with
  | nil => rfl
  | cons a rest ih => simp [List.count_cons, ih]

theorem count_release_map_release (l : List Nat) (s : Nat) :
    ((l.map Event.release).count (Event.release s)) = l.count s := by
  induction l with
  | nil => rfl
  | cons a rest ih => simp [List.count_cons, ih]

theorem retire_cmd_allocate_ok (tid : Nat) (sl : SemaphoreList) :
    iree_hal_task_queue_retire_cmd_allocate tid sl true true =
      (Status.ok,
       some { task_id := tid, completion_task := 0,
              arena := { records := [clonedOf sl] },
              signal_semaphores := clonedOf sl },
       (clone_loop sl.entries).2.2) := by
  simp [iree_hal_task_queue_retire_cmd_allocate, semaphore_list_clone_ok]

theorem wait_cmd_allocate_ok (tid : Nat) (wl : SemaphoreList) (arena : Arena) :
    iree_hal_task_queue_wait_cmd_allocate tid wl arena true true =
      (Status.ok,
       some { task_id := tid, completion_task := 0,
              arena := { records := arena.records ++ [clonedOf wl] },
              wait_semaphores := clonedOf wl },
       { records := arena.records ++ [clonedOf wl] },
       (clone_loop wl.entries).2.2) := by
  simp [iree_hal_task_queue_wait_cmd_allocate, semaphore_list_clone_ok]

theorem Status.isOk_ok : Status.ok.isOk = true := rfl

theorem Status.isOk_err (c : Nat) : (Status.err c).isOk = false := rfl

theorem Status.isOk_iff (st : Status) : st.isOk = true ↔ st = Status.ok := by
  cases st <;> simp [Status.isOk]

theorem count_retain_map_retain_nat (l : List Nat) (s : Nat) :
    ((l.map Event.retain).count (Event.retain s)) = l.count s := by
  induction l with
  | nil => rfl
  | cons a rest ih => simp [List.count_cons, ih]

theorem retire_cmd_loop_all_ok (sig : Nat → Nat → Status)
    (l : List (Nat × Nat)) (h : ∀ p ∈ l, (sig p.1 p.2).isOk = true) :
    retire_cmd_loop sig l
      = (Status.ok, l.map fun p => Event.signal p.1 p.2) := by
  induction l with
  | nil => rfl
  | cons p rest ih =>
    obtain ⟨s, v⟩ := p
    have hs : (sig s v).isOk = true := h (s, v) (by simp)
    have hr := ih fun q hq => h q (by simp [hq])
    simp [retire_cmd_loop, hs, hr]

theorem retire_cmd_loop_first_fail (sig : Nat → Nat → Status)
    (pre post : List (Nat × Nat)) (s v : Nat)
    (hpre : ∀ p ∈ pre, (sig p.1 p.2).isOk = true)
    (hfail : (sig s v).isOk = false) :
    retire_cmd_loop sig (pre ++ (s, v) :: post)
      = (sig s v, pre.map fun p => Event.signal p.1 p.2) := by
  induction pre with
  | nil => simp [retire_cmd_loop, hfail]
  | cons p rest ih =>
    obtain ⟨a, b⟩ := p
    have ha : (sig a b).isOk = true := hpre (a, b) (by simp)
    have hr := ih fun q hq => hpre q (by simp [hq])
    simp [retire_cmd_loop, ha, hr]

theorem wait_cmd_loop_all_ok (completion : Nat) (arena : Arena)
    (enq : Nat → Nat → Status) (l : List (Nat × Nat))
    (h : ∀ p ∈ l, (enq p.1 p.2).isOk = true) :
    wait_cmd_loop completion arena enq l
      = (Status.ok,
         l.map fun p => Event.enqueueTimepoint p.1 p.2 completion arena) := by
  induction l with
  | nil => rfl
  | cons p rest ih =>
    obtain ⟨s, v⟩ := p
    have hs : (enq s v).isOk = true := h (s, v) (by simp)
    have hr := ih fun q hq => h q (by simp [hq])
    simp [wait_cmd_loop, hs, hr]

theorem wait_cmd_loop_first_fail (completion : Nat) (arena : Arena)
    (enq : Nat → Nat → Status) (pre post : List (Nat × Nat)) (s v : Nat)
    (hpre : ∀ p ∈ pre, (enq p.1 p.2).isOk = true)
    (hfail : (enq s v).isOk = false) :
    wait_cmd_loop completion arena enq (pre ++ (s, v) :: post)
      = (enq s v,
         pre.map fun p => Event.enqueueTimepoint p.1 p.2 completion arena) := by
  induction pre with
  | nil => simp [wait_cmd_loop, hfail]
  | cons p rest ih =>
    obtain ⟨a, b⟩ := p
    have ha : (enq a b).isOk = true := hpre (a, b) (by simp)
    have hr := ih fun q hq => hpre q (by simp [hq])
    simp [wait_cmd_loop, ha, hr]

/-- Claim C10: iree_hal_semaphore_list_clone is atomic with respect to
reference counts: for any well-formed source list, when the single arena
allocation succeeds it returns ok with a target list of the same count and
the same semaphore handles and payload values in the same order, and the
trace holds exactly one retain per (occurrence of a) semaphore of the
source list; when the allocation fails it returns the error having retained
no semaphore at all. -/
theorem claim_C10_clone_atomic (src : SemaphoreList) (hwf : src.WF) :
    (iree_hal_semaphore_list_clone src true =
      (Status.ok,
       some { count := src.count, semaphores := src.semaphores,
              payload_values := src.payload_values },
       src.semaphores.map Event.retain)
     ∧ ∀ s : Nat,
        (src.semaphores.map Event.retain).count (Event.retain s)
          = src.semaphores.count s)
    ∧ iree_hal_semaphore_list_clone src false = (Status.err 1, none, []) := by
  obtain ⟨h1, h2⟩ := hwf
  have htake1 : src.semaphores.take src.count = src.semaphores :=
    List.take_of_length_le (le_of_eq h1)
  have htake2 : src.payload_values.take src.count = src.payload_values :=
    List.take_of_length_le (le_of_eq h2)
  have hent : src.entries = src.semaphores.zip src.payload_values := by
    simp [SemaphoreList.entries, htake1, htake2]
  have hfst : (src.semaphores.zip src.payload_values).map Prod.fst
      = src.semaphores := List.map_fst_zip _ _ (by omega)
  have hsnd : (src.semaphores.zip src.payload_values).map Prod.snd
      = src.payload_values := List.map_snd_zip _ _ (by omega)
  refine ⟨⟨?_, ?_⟩, semaphore_list_clone_fail src⟩
  · rw [semaphore_list_clone_ok]
    have hsem : (clonedOf src).semaphores = src.semaphores := by
      simp [clonedOf, clone_loop_fst, hent, hfst]
    have hval : (clonedOf src).payload_values = src.payload_values := by
      simp [clonedOf, clone_loop_snd, hent, hsnd]
    have hev : (clone_loop src.entries).2.2
        = src.semaphores.map Event.retain := by
      rw [clone_loop_events, hent]
      rw [show ((src.semaphores.zip src.payload_values).map
            fun p => Event.retain p.1)
          = ((src.semaphores.zip src.payload_values).map Prod.fst).map
            Event.retain from by rw [List.map_map]; rfl]
      rw [hfst]
    rw [hev]
    have : clonedOf src
        = { count := src.count, semaphores := src.semaphores,
            payload_values := src.payload_values } := by
      cases hc : clonedOf src
      simp_all [clonedOf]
    rw [this]
  · intro s
    exact count_retain_map_retain_nat src.semaphores s

/-- Closed-form check of claim C10 at a concrete well-formed list. -/
theorem claim_C10_clone_atomic_witness :
    (iree_hal_semaphore_list_clone
        { count := 2, semaphores := [5, 9], payload_values := [1, 2] } true =
      (Status.ok,
       some { count := 2, semaphores := [5, 9], payload_values := [1, 2] },
       [Event.retain 5, Event.retain 9])
     ∧ ∀ s : Nat,
        ([Event.retain 5, Event.retain 9]).count (Event.retain s)
          = ([5, 9] : List Nat).count s)
    ∧ iree_hal_semaphore_list_clone
        { count := 2, semaphores := [5, 9], payload_values := [1, 2] } false
        = (Status.err 1, none, []) := by
  have h := claim_C10_clone_atomic
    { count := 2, semaphores := [5, 9], payload_values := [1, 2] }
    (by constructor <;> rfl)
  simpa using h

theorem retire_cmd_loop_signal_mem (sig : Nat → Nat → Status)
    (l : List (Nat × Nat)) (s v : Nat)
    (h : Event.signal s v ∈ (retire_cmd_loop sig l).2) : (s, v) ∈ l := by
  induction l with
  | nil => simp [retire_cmd_loop] at h
  | cons p rest ih =>
    obtain ⟨a, b⟩ := p
    by_cases hab : (sig a b).isOk = true
    · simp only [retire_cmd_loop, hab, if_true, List.mem_cons,
        Event.signal.injEq] at h
      rcases h with ⟨h1, h2⟩ | h
      · simp [h1, h2]
      · exact List.mem_cons_of_mem _ (ih h)
    · simp [retire_cmd_loop, hab] at h

/-- Claim C4: when the retire task finishes with a non-ok status (for
example because a semaphore signal returned that error), the retire cleanup
calls semaphore fail with a clone of that status on every semaphore of the
batch's signal list — in particular on every semaphore whose signal was
already successfully issued by the run function — before releasing the
retains and before deinitializing the arena. -/
theorem claim_C4_retire_cleanup_fails_all (cmd : RetireCmd)
    (sig : Nat → Nat → Status) (code : Nat)
    (hrun : (iree_hal_task_queue_retire_cmd cmd sig).1 = Status.err code) :
    iree_hal_task_queue_retire_cmd_cleanup cmd (Status.err code)
      = ((cmd.signal_semaphores.semaphores.take
            cmd.signal_semaphores.count).map fun s => Event.fail s code)
        ++ ((cmd.signal_semaphores.semaphores.take
              cmd.signal_semaphores.count).map Event.release)
        ++ [Event.arenaDeinit]
    ∧ ∀ s v, Event.signal s v ∈ (iree_hal_task_queue_retire_cmd cmd sig).2 →
        Event.fail s code
          ∈ iree_hal_task_queue_retire_cmd_cleanup cmd (Status.err code) := by
  constructor
  · simp [iree_hal_task_queue_retire_cmd_cleanup, fail_loop_eq,
      iree_hal_semaphore_list_release, release_loop_eq]
  · intro s v h
    have hmem : (s, v) ∈ cmd.signal_semaphores.entries :=
      retire_cmd_loop_signal_mem sig _ s v h
    have hs : s ∈ cmd.signal_semaphores.semaphores.take
        cmd.signal_semaphores.count :=
      (List.of_mem_zip hmem).1
    simp only [iree_hal_task_queue_retire_cmd_cleanup, fail_loop_eq,
      List.append_assoc, List.mem_append]
    exact Or.inl (List.mem_map_of_mem _ hs)

/-- Closed-form check of claim C4: a retire command over signal list
[(4, 1), (6, 2)] whose second signal fails with code 7. -/
theorem claim_C4_retire_cleanup_fails_all_witness :
    iree_hal_task_queue_retire_cmd_cleanup
        { task_id := 0, completion_task := 1, arena := { records := [] },
          signal_semaphores :=
            { count := 2, semaphores := [4, 6], payload_values := [1, 2] } }
        (Status.err 7)
      = [Event.fail 4 7, Event.fail 6 7, Event.release 4, Event.release 6,
         Event.arenaDeinit]
    ∧ Event.fail 4 7 ∈ iree_hal_task_queue_retire_cmd_cleanup
        { task_id := 0, completion_task := 1, arena := { records := [] },
          signal_semaphores :=
            { count := 2, semaphores := [4, 6], payload_values := [1, 2] } }
        (Status.err 7) := by
  have h := claim_C4_retire_cleanup_fails_all
    { task_id := 0, completion_task := 1, arena := { records := [] },
      signal_semaphores :=
        { count := 2, semaphores := [4, 6], payload_values := [1, 2] } }
    (fun s _ => if s = 4 then Status.ok else Status.err 7) 7 (by decide)
  refine ⟨by simpa using h.1, h.2 4 1 (by decide)⟩

/-- Claim C5: the retire run function signals the batch's signal semaphores
to their payload values in list order; the first signal that returns an
error aborts the loop and becomes the task's result, and the trace holds
exactly the signals issued before the failing one (no rollback of earlier
signals); when no signal fails, every entry is signaled in order and ok is
returned. -/
theorem claim_C5_retire_signals_in_order (cmd : RetireCmd)
    (sig : Nat → Nat → Status) :
    (∀ pre post s v,
        cmd.signal_semaphores.entries = pre ++ (s, v) :: post →
        (∀ p ∈ pre, (sig p.1 p.2).isOk = true) →
        (sig s v).isOk = false →
        iree_hal_task_queue_retire_cmd cmd sig
          = (sig s v, pre.map fun p => Event.signal p.1 p.2))
    ∧ ((∀ p ∈ cmd.signal_semaphores.entries, (sig p.1 p.2).isOk = true) →
        iree_hal_task_queue_retire_cmd cmd sig
          = (Status.ok, cmd.signal_semaphores.entries.map
              fun p => Event.signal p.1 p.2)) := by
  constructor
  · intro pre post s v hsplit hpre hfail
    rw [iree_hal_task_queue_retire_cmd, hsplit]
    exact retire_cmd_loop_first_fail sig pre post s v hpre hfail
  · intro h
    rw [iree_hal_task_queue_retire_cmd]
    exact retire_cmd_loop_all_ok sig _ h

/-- Closed-form check of claim C5: with signal list [(4, 1), (6, 2)] and a
signal function failing on semaphore 6, the run returns the error and only
semaphore 4 was signaled. -/
theorem claim_C5_retire_signals_in_order_witness :
    iree_hal_task_queue_retire_cmd
        { task_id := 0, completion_task := 1, arena := { records := [] },
          signal_semaphores :=
            { count := 2, semaphores := [4, 6], payload_values := [1, 2] } }
        (fun s _ => if s = 4 then Status.ok else Status.err 7)
      = (Status.err 7, [Event.signal 4 1]) := by
  have h := (claim_C5_retire_signals_in_order
    { task_id := 0, completion_task := 1, arena := { records := [] },
      signal_semaphores :=
        { count := 2, semaphores := [4, 6], payload_values := [1, 2] } }
    (fun s _ => if s = 4 then Status.ok else Status.err 7)).1
    [(4, 1)] [] 6 2 (by decide) (by decide) (by decide)
  simpa using h

theorem submit_batch_ok_eq (tail : Option Nat) (base : Nat) (batch : Batch)
    (plan : FailPlan)
    (hok : (iree_hal_task_queue_submit_batch tail base batch plan).status
      = Status.ok) :
    iree_hal_task_queue_submit_batch tail base batch plan
      = submitOkOutcome tail base batch := by
  obtain ⟨rrec, rclone, fstat, wrec, wclone, iok⟩ := plan
  cases rrec
  · exfalso
    simp [iree_hal_task_queue_submit_batch,
      iree_hal_task_queue_retire_cmd_allocate, iree_arena_deinit,
      release_records] at hok
  · cases rclone
    · exfalso
      simp [iree_hal_task_queue_submit_batch,
        iree_hal_task_queue_retire_cmd_allocate, semaphore_list_clone_fail,
        iree_arena_deinit, release_records] at hok
    · cases fstat with
      | err c =>
        exfalso
        simp [iree_hal_task_queue_submit_batch, retire_cmd_allocate_ok,
          Status.isOk, iree_arena_deinit, release_records] at hok
      | ok =>
        by_cases hw : 0 < batch.wait_semaphores.count
        · cases wrec
          · exfalso
            simp [iree_hal_task_queue_submit_batch, retire_cmd_allocate_ok,
              iree_hal_task_queue_wait_cmd_allocate, hw, Status.isOk,
              iree_arena_deinit, release_records] at hok
          · cases wclone
            · exfalso
              simp [iree_hal_task_queue_submit_batch, retire_cmd_allocate_ok,
                iree_hal_task_queue_wait_cmd_allocate,
                semaphore_list_clone_fail, hw, Status.isOk,
                iree_arena_deinit, release_records] at hok
            · cases iok
              · exfalso
                simp [iree_hal_task_queue_submit_batch,
                  retire_cmd_allocate_ok, wait_cmd_allocate_ok,
                  iree_hal_task_queue_issue_cmd_allocate, hw, Status.isOk,
                  iree_arena_deinit, release_records] at hok
              · simp [iree_hal_task_queue_submit_batch,
                  retire_cmd_allocate_ok, wait_cmd_allocate_ok,
                  iree_hal_task_queue_issue_cmd_allocate, hw, Status.isOk,
                  submitOkOutcome]
        · cases iok
          · exfalso
            simp [iree_hal_task_queue_submit_batch, retire_cmd_allocate_ok,
              iree_hal_task_queue_issue_cmd_allocate, hw, Status.isOk,
              iree_arena_deinit, release_records] at hok
          · simp [iree_hal_task_queue_submit_batch, retire_cmd_allocate_ok,
              iree_hal_task_queue_issue_cmd_allocate, hw, Status.isOk,
              submitOkOutcome]

/-- Claim C2: in every successful SubmitBatch, under the queue mutex: when
the queue held a tail issue task, a completion edge is set from it to this
batch's issue task — never to the wait task, to which no edge is ever set —
and tail_issue_task is unconditionally set to this batch's issue task. -/
theorem claim_C2_fifo_edge_to_issue (tail : Option Nat) (base : Nat)
    (batch : Batch) (plan : FailPlan)
    (hok : (iree_hal_task_queue_submit_batch tail base batch plan).status
      = Status.ok) :
    (iree_hal_task_queue_submit_batch tail base batch plan).tail_issue_task
      = some (issueTaskId base)
    ∧ (∀ t, tail = some t →
        (t, issueTaskId base)
          ∈ (iree_hal_task_queue_submit_batch tail base batch plan).edges)
    ∧ ∀ x, (x, waitTaskId base)
        ∉ (iree_hal_task_queue_submit_batch tail base batch plan).edges := by
  rw [submit_batch_ok_eq tail base batch plan hok]
  refine ⟨rfl, ?_, ?_⟩
  · intro t ht
    subst ht
    by_cases hw : 0 < batch.wait_semaphores.count <;>
      simp [submitOkOutcome, hw]
  · intro x
    cases tail with
    | none =>
      by_cases hw : 0 < batch.wait_semaphores.count <;>
        simp [submitOkOutcome, hw, retireTaskId, fenceTaskId, waitTaskId,
          issueTaskId]
    | some t =>
      by_cases hw : 0 < batch.wait_semaphores.count <;>
        simp [submitOkOutcome, hw, retireTaskId, fenceTaskId, waitTaskId,
          issueTaskId]

/-- Closed-form check of claim C2 at a concrete successful submission with
a previous tail issue task. -/
theorem claim_C2_fifo_edge_to_issue_witness :
    (iree_hal_task_queue_submit_batch (some 3) 8
        { wait_semaphores := { count := 1, semaphores := [5],
                               payload_values := [1] },
          signal_semaphores := { count := 0, semaphores := [],
                                 payload_values := [] },
          command_buffer_count := 0, command_buffers := [] }
        { retire_record_alloc_ok := true, retire_clone_alloc_ok := true,
          fence_status := Status.ok, wait_record_alloc_ok := true,
          wait_clone_alloc_ok := true,
          issue_alloc_ok := true }).tail_issue_task = some (issueTaskId 8)
    ∧ (3, issueTaskId 8)
        ∈ (iree_hal_task_queue_submit_batch (some 3) 8
            { wait_semaphores := { count := 1, semaphores := [5],
                                   payload_values := [1] },
              signal_semaphores := { count := 0, semaphores := [],
                                     payload_values := [] },
              command_buffer_count := 0, command_buffers := [] }
            { retire_record_alloc_ok := true, retire_clone_alloc_ok := true,
              fence_status := Status.ok, wait_record_alloc_ok := true,
              wait_clone_alloc_ok := true, issue_alloc_ok := true }).edges
    ∧ (7, waitTaskId 8)
        ∉ (iree_hal_task_queue_submit_batch (some 3) 8
            { wait_semaphores := { count := 1, semaphores := [5],
                                   payload_values := [1] },
              signal_semaphores := { count := 0, semaphores := [],
                                     payload_values := [] },
              command_buffer_count := 0, command_buffers := [] }
            { retire_record_alloc_ok := true, retire_clone_alloc_ok := true,
              fence_status := Status.ok, wait_record_alloc_ok := true,
              wait_clone_alloc_ok := true, issue_alloc_ok := true }).edges := by
  have h := claim_C2_fifo_edge_to_issue (some 3) 8
    { wait_semaphores := { count := 1, semaphores := [5],
                           payload_values := [1] },
      signal_semaphores := { count := 0, semaphores := [],
                             payload_values := [] },
      command_buffer_count := 0, command_buffers := [] }
    { retire_record_alloc_ok := true, retire_clone_alloc_ok := true,
      fence_status := Status.ok, wait_record_alloc_ok := true,
      wait_clone_alloc_ok := true, issue_alloc_ok := true }
    (by decide)
  exact ⟨h.1, h.2.1 3 rfl, h.2.2 7⟩

/-- Claim C7: in every successful SubmitBatch, a wait task exists exactly
when the batch's wait-semaphore count is positive, and the head task handed
to the executor is the wait task when it exists and the issue task
otherwise. -/
theorem claim_C7_wait_iff_and_head (tail : Option Nat) (base : Nat)
    (batch : Batch) (plan : FailPlan)
    (hok : (iree_hal_task_queue_submit_batch tail base batch plan).status
      = Status.ok) :
    ((iree_hal_task_queue_submit_batch tail base batch plan).wait_cmd.isSome
        = true ↔ 0 < batch.wait_semaphores.count)
    ∧ (iree_hal_task_queue_submit_batch tail base batch plan).head_task
      = some (if 0 < batch.wait_semaphores.count then waitTaskId base
              else issueTaskId base) := by
  rw [submit_batch_ok_eq tail base batch plan hok]
  by_cases hw : 0 < batch.wait_semaphores.count <;>
    simp [submitOkOutcome, hw]

/-- Closed-form check of claim C7: one batch with a wait semaphore and one
without. -/
theorem claim_C7_wait_iff_and_head_witness :
    ((iree_hal_task_queue_submit_batch none 0
        { wait_semaphores := { count := 1, semaphores := [5],
                               payload_values := [1] },
          signal_semaphores := { count := 0, semaphores := [],
                                 payload_values := [] },
          command_buffer_count := 0, command_buffers := [] }
        { retire_record_alloc_ok := true, retire_clone_alloc_ok := true,
          fence_status := Status.ok, wait_record_alloc_ok := true,
          wait_clone_alloc_ok := true, issue_alloc_ok := true }).head_task
      = some (waitTaskId 0))
    ∧ ((iree_hal_task_queue_submit_batch none 0
        { wait_semaphores := { count := 0, semaphores := [],
                               payload_values := [] },
          signal_semaphores := { count := 0, semaphores := [],
                                 payload_values := [] },
          command_buffer_count := 0, command_buffers := [] }
        { retire_record_alloc_ok := true, retire_clone_alloc_ok := true,
          fence_status := Status.ok, wait_record_alloc_ok := true,
          wait_clone_alloc_ok := true, issue_alloc_ok := true }).head_task
      = some (issueTaskId 0)) := by
  constructor
  · have h := (claim_C7_wait_iff_and_head none 0
      { wait_semaphores := { count := 1, semaphores := [5],
                             payload_values := [1] },
        signal_semaphores := { count := 0, semaphores := [],
                               payload_values := [] },
        command_buffer_count := 0, command_buffers := [] }
      { retire_record_alloc_ok := true, retire_clone_alloc_ok := true,
        fence_status := Status.ok, wait_record_alloc_ok := true,
        wait_clone_alloc_ok := true, issue_alloc_ok := true }
      (by decide)).2
    simpa using h
  · have h := (claim_C7_wait_iff_and_head none 0
      { wait_semaphores := { count := 0, semaphores := [],
                             payload_values := [] },
        signal_semaphores := { count := 0, semaphores := [],
                               payload_values := [] },
        command_buffer_count := 0, command_buffers := [] }
      { retire_record_alloc_ok := true, retire_clone_alloc_ok := true,
        fence_status := Status.ok, wait_record_alloc_ok := true,
        wait_clone_alloc_ok := true, issue_alloc_ok := true }
      (by decide)).2
    simpa using h

theorem submit_batch_allOkPlan_status (tail : Option Nat) (base : Nat)
    (batch : Batch) :
    (iree_hal_task_queue_submit_batch tail base batch allOkPlan).status
      = Status.ok := by
  by_cases hw : 0 < batch.wait_semaphores.count <;>
    simp [iree_hal_task_queue_submit_batch, allOkPlan,
      retire_cmd_allocate_ok, wait_cmd_allocate_ok,
      iree_hal_task_queue_issue_cmd_allocate, hw, Status.isOk]

/-- Claim C8: a batch with zero command buffers is accepted when all
external calls succeed: SubmitBatch returns ok, the issue command holds an
empty command-buffer array, its run function issues zero command buffers
and returns ok, and already at allocation time the issue command's
completion task is the retire task (so the retire task still runs once the
issue task completes). -/
theorem claim_C8_zero_command_buffers (ws ss : SemaphoreList)
    (cbs : List Nat) (tail : Option Nat) (base : Nat) (iss : Nat → Status) :
    (iree_hal_task_queue_submit_batch tail base
        { wait_semaphores := ws, signal_semaphores := ss,
          command_buffer_count := 0, command_buffers := cbs }
        allOkPlan).status = Status.ok
    ∧ (iree_hal_task_queue_submit_batch tail base
        { wait_semaphores := ws, signal_semaphores := ss,
          command_buffer_count := 0, command_buffers := cbs }
        allOkPlan).issue_cmd
      = some { task_id := issueTaskId base,
               completion_task := retireTaskId base,
               command_buffer_count := 0, command_buffers := [] }
    ∧ iree_hal_task_queue_issue_cmd
        { task_id := issueTaskId base, completion_task := retireTaskId base,
          command_buffer_count := 0, command_buffers := [] } iss
      = (Status.ok, [])
    ∧ iree_hal_task_queue_issue_cmd_allocate (issueTaskId base)
        (retireTaskId base) 0 cbs true
      = (Status.ok,
         some { task_id := issueTaskId base,
                completion_task := retireTaskId base,
                command_buffer_count := 0, command_buffers := [] }) := by
  have hok := submit_batch_allOkPlan_status tail base
    { wait_semaphores := ws, signal_semaphores := ss,
      command_buffer_count := 0, command_buffers := cbs }
  refine ⟨hok, ?_, ?_, ?_⟩
  · rw [submit_batch_ok_eq _ _ _ _ hok]
    simp [submitOkOutcome]
  · simp [iree_hal_task_queue_issue_cmd]
  · simp [iree_hal_task_queue_issue_cmd_allocate]

/-- Claim C6: for every successful SubmitBatch that created a wait task,
the wait command's completion task is the batch's issue task and its arena
is the submission arena owned by the retire command; the wait run function
enqueues one timepoint per entry of the cloned wait list, in list order,
passing that completion task and that arena; the first failing call stops
the loop and its error is returned, with exactly the earlier enqueues in
the trace; when no call fails every entry is enqueued and ok returned. -/
theorem claim_C6_wait_enqueues_to_issue (tail : Option Nat) (base : Nat)
    (batch : Batch) (plan : FailPlan) (wc : WaitCmd)
    (enq : Nat → Nat → Status)
    (hok : (iree_hal_task_queue_submit_batch tail base batch plan).status
      = Status.ok)
    (hwc : (iree_hal_task_queue_submit_batch tail base batch plan).wait_cmd
      = some wc) :
    wc.completion_task = issueTaskId base
    ∧ (∀ rc, (iree_hal_task_queue_submit_batch tail base
        batch plan).retire_cmd = some rc → wc.arena = rc.arena)
    ∧ (∀ pre post s v,
        wc.wait_semaphores.entries = pre ++ (s, v) :: post →
        (∀ p ∈ pre, (enq p.1 p.2).isOk = true) →
        (enq s v).isOk = false →
        iree_hal_task_queue_wait_cmd wc enq
          = (enq s v, pre.map fun p =>
              Event.enqueueTimepoint p.1 p.2 wc.completion_task wc.arena))
    ∧ ((∀ p ∈ wc.wait_semaphores.entries, (enq p.1 p.2).isOk = true) →
        iree_hal_task_queue_wait_cmd wc enq
          = (Status.ok, wc.wait_semaphores.entries.map fun p =>
              Event.enqueueTimepoint p.1 p.2 wc.completion_task wc.arena)) := by
  rw [submit_batch_ok_eq tail base batch plan hok] at hwc ⊢
  by_cases hw : 0 < batch.wait_semaphores.count
  · simp only [submitOkOutcome, hw, if_true] at hwc ⊢
    have hwceq := Option.some.inj hwc
    subst hwceq
    refine ⟨rfl, ?_, ?_, ?_⟩
    · intro rc hrc
      have hrceq := Option.some.inj hrc
      subst hrceq
      rfl
    · intro pre post s v hsplit hpre hfail
      rw [iree_hal_task_queue_wait_cmd, hsplit]
      exact wait_cmd_loop_first_fail _ _ enq pre post s v hpre hfail
    · intro h
      rw [iree_hal_task_queue_wait_cmd]
      exact wait_cmd_loop_all_ok _ _ enq _ h
  · simp [submitOkOutcome, hw] at hwc

/-- Closed-form check of claim C6 at a concrete submission with one wait
semaphore on a queue with no previous tail issue task. -/
theorem claim_C6_wait_enqueues_to_issue_witness :
    (iree_hal_task_queue_submit_batch none 0
        { wait_semaphores := { count := 1, semaphores := [5],
                               payload_values := [9] },
          signal_semaphores := { count := 0, semaphores := [],
                                 payload_values := [] },
          command_buffer_count := 0, command_buffers := [] }
        allOkPlan).wait_cmd
      = some { task_id := waitTaskId 0, completion_task := issueTaskId 0,
               arena := { records :=
                 [{ count := 0, semaphores := [], payload_values := [] },
                  { count := 1, semaphores := [5], payload_values := [9] }] },
               wait_semaphores := { count := 1, semaphores := [5],
                                    payload_values := [9] } }
    ∧ iree_hal_task_queue_wait_cmd
        { task_id := waitTaskId 0, completion_task := issueTaskId 0,
          arena := { records :=
            [{ count := 0, semaphores := [], payload_values := [] },
             { count := 1, semaphores := [5], payload_values := [9] }] },
          wait_semaphores := { count := 1, semaphores := [5],
                               payload_values := [9] } }
        (fun _ _ => Status.ok)
      = (Status.ok,
         [Event.enqueueTimepoint 5 9 (issueTaskId 0)
            { records :=
              [{ count := 0, semaphores := [], payload_values := [] },
               { count := 1, semaphores := [5], payload_values := [9] }] }]) := by
  have h := claim_C6_wait_enqueues_to_issue none 0
    { wait_semaphores := { count := 1, semaphores := [5],
                           payload_values := [9] },
      signal_semaphores := { count := 0, semaphores := [],
                             payload_values := [] },
      command_buffer_count := 0, command_buffers := [] }
    allOkPlan
    { task_id := waitTaskId 0, completion_task := issueTaskId 0,
      arena := { records :=
        [{ count := 0, semaphores := [], payload_values := [] },
         { count := 1, semaphores := [5], payload_values := [9] }] },
      wait_semaphores := { count := 1, semaphores := [5],
                           payload_values := [9] } }
    (fun _ _ => Status.ok) (by decide) (by decide)
  refine ⟨by decide, ?_⟩
  have h2 := h.2.2.2 (by decide)
  simpa [SemaphoreList.entries] using h2

theorem count_retain_map_release_fst (l : List (Nat × Nat)) (s : Nat) :
    ((l.map (Event.release ∘ Prod.fst)).count (Event.retain s)) = 0 := by
  induction l with
  | nil => rfl
  | cons p rest ih => simp [List.count_cons, ih, Function.comp]

theorem count_release_map_release_fst (l : List (Nat × Nat)) (s : Nat) :
    ((l.map (Event.release ∘ Prod.fst)).count (Event.release s))
      = (l.map Prod.fst).count s := by
  induction l with
  | nil => rfl
  | cons p rest ih => simp [List.count_cons, ih, Function.comp]

theorem count_retain_arenaDeinit (s : Nat) :
    ([Event.arenaDeinit].count (Event.retain s)) = 0 := by
  simp [List.count_cons]

theorem count_release_arenaDeinit (s : Nat) :
    ([Event.arenaDeinit].count (Event.release s)) = 0 := by
  simp [List.count_cons]

/-- Claim C1: every SubmitBatch call that fails after the retire command
was allocated (fence acquisition, wait-command allocation or issue-command
allocation failed) has released, by the time it returns, every semaphore it
retained while cloning the signal and wait semaphore lists: per semaphore,
the trace holds as many releases as retains. -/
theorem claim_C1_prefail_retains_balanced (tail : Option Nat) (base : Nat)
    (batch : Batch) (plan : FailPlan) (s : Nat)
    (h1 : plan.retire_record_alloc_ok = true)
    (h2 : plan.retire_clone_alloc_ok = true)
    (h3 : (iree_hal_task_queue_submit_batch tail base
        batch plan).status.isOk = false) :
    ((iree_hal_task_queue_submit_batch tail base batch plan).events).count
        (Event.retain s)
      = ((iree_hal_task_queue_submit_batch tail base
          batch plan).events).count (Event.release s) := by
  obtain ⟨rrec, rclone, fstat, wrec, wclone, iok⟩ := plan
  dsimp only at h1 h2
  subst h1
  subst h2
  cases fstat with
  | err c =>
    simp [iree_hal_task_queue_submit_batch, retire_cmd_allocate_ok,
      Status.isOk, iree_arena_deinit, release_records, release_clonedOf,
      clone_loop_events, List.count_append, count_retain_map_retain,
      count_release_map_retain, count_retain_map_release,
      count_release_map_release, count_retain_arenaDeinit,
      count_release_arenaDeinit, count_retain_map_release_fst,
      count_release_map_release_fst, List.map_map, Function.comp]
  | ok =>
    by_cases hw : 0 < batch.wait_semaphores.count
    · cases wrec
      · simp [iree_hal_task_queue_submit_batch, retire_cmd_allocate_ok,
          iree_hal_task_queue_wait_cmd_allocate, hw, Status.isOk,
          iree_arena_deinit, release_records, release_clonedOf,
          clone_loop_events, List.count_append, count_retain_map_retain,
          count_release_map_retain, count_retain_map_release,
          count_release_map_release, count_retain_arenaDeinit,
          count_release_arenaDeinit, count_retain_map_release_fst,
          count_release_map_release_fst, List.map_map, Function.comp]
      · cases wclone
        · simp [iree_hal_task_queue_submit_batch, retire_cmd_allocate_ok,
            iree_hal_task_queue_wait_cmd_allocate,
            semaphore_list_clone_fail, hw, Status.isOk,
            iree_arena_deinit, release_records, release_clonedOf,
            clone_loop_events, List.count_append, count_retain_map_retain,
            count_release_map_retain, count_retain_map_release,
            count_release_map_release, count_retain_arenaDeinit,
            count_release_arenaDeinit, count_retain_map_release_fst,
            count_release_map_release_fst, List.map_map, Function.comp]
        · cases iok
          · simp [iree_hal_task_queue_submit_batch, retire_cmd_allocate_ok,
              wait_cmd_allocate_ok, iree_hal_task_queue_issue_cmd_allocate,
              hw, Status.isOk, iree_arena_deinit, release_records,
              release_clonedOf, clone_loop_events, List.count_append,
              count_retain_map_retain, count_release_map_retain,
              count_retain_map_release, count_release_map_release,
              count_retain_arenaDeinit, count_release_arenaDeinit,
              count_retain_map_release_fst, count_release_map_release_fst,
              List.map_map, Function.comp]
          · exfalso
            simp [iree_hal_task_queue_submit_batch, retire_cmd_allocate_ok,
              wait_cmd_allocate_ok, iree_hal_task_queue_issue_cmd_allocate,
              hw, Status.isOk] at h3
    · cases iok
      · simp [iree_hal_task_queue_submit_batch, retire_cmd_allocate_ok,
          iree_hal_task_queue_issue_cmd_allocate, hw, Status.isOk,
          iree_arena_deinit, release_records, release_clonedOf,
          clone_loop_events, List.count_append, count_retain_map_retain,
          count_release_map_retain, count_retain_map_release,
          count_release_map_release, count_retain_arenaDeinit,
          count_release_arenaDeinit, count_retain_map_release_fst,
          count_release_map_release_fst, List.map_map, Function.comp]
      · exfalso
        simp [iree_hal_task_queue_submit_batch, retire_cmd_allocate_ok,
          iree_hal_task_queue_issue_cmd_allocate, hw, Status.isOk] at h3

/-- Closed-form check of claim C1: fence acquisition fails after the signal
list [(4, 1)] was cloned; the retain of semaphore 4 is balanced by a
release. -/
theorem claim_C1_prefail_retains_balanced_witness :
    ((iree_hal_task_queue_submit_batch none 0
        { wait_semaphores := { count := 0, semaphores := [],
                               payload_values := [] },
          signal_semaphores := { count := 1, semaphores := [4],
                                 payload_values := [1] },
          command_buffer_count := 0, command_buffers := [] }
        { retire_record_alloc_ok := true, retire_clone_alloc_ok := true,
          fence_status := Status.err 9, wait_record_alloc_ok := true,
          wait_clone_alloc_ok := true,
          issue_alloc_ok := true }).events).count (Event.retain 4)
      = ((iree_hal_task_queue_submit_batch none 0
          { wait_semaphores := { count := 0, semaphores := [],
                                 payload_values := [] },
            signal_semaphores := { count := 1, semaphores := [4],
                                   payload_values := [1] },
            command_buffer_count := 0, command_buffers := [] }
          { retire_record_alloc_ok := true, retire_clone_alloc_ok := true,
            fence_status := Status.err 9, wait_record_alloc_ok := true,
            wait_clone_alloc_ok := true,
            issue_alloc_ok := true }).events).count (Event.release 4) :=
  claim_C1_prefail_retains_balanced none 0
    { wait_semaphores := { count := 0, semaphores := [],
                           payload_values := [] },
      signal_semaphores := { count := 1, semaphores := [4],
                             payload_values := [1] },
      command_buffer_count := 0, command_buffers := [] }
    { retire_record_alloc_ok := true, retire_clone_alloc_ok := true,
      fence_status := Status.err 9, wait_record_alloc_ok := true,
      wait_clone_alloc_ok := true, issue_alloc_ok := true }
    4 rfl rfl (by decide)

theorem flush_not_mem_release (sl : SemaphoreList) :
    Event.executorFlush ∉ iree_hal_semaphore_list_release sl := by
  intro h
  rw [iree_hal_semaphore_list_release, release_loop_eq] at h
  obtain ⟨a, _, ha⟩ := List.mem_map.mp h
  exact absurd ha (by simp)

theorem flush_not_mem_release_records (rs : List SemaphoreList) :
    Event.executorFlush ∉ release_records rs := by
  induction rs with
  | nil => simp [release_records]
  | cons r rest ih => simp [release_records, flush_not_mem_release r, ih]

theorem flush_not_mem_arena_deinit (a : Arena) :
    Event.executorFlush ∉ iree_arena_deinit a := by
  simp [iree_arena_deinit, flush_not_mem_release_records]

theorem submit_batch_no_flush (tail : Option Nat) (base : Nat)
    (batch : Batch) (plan : FailPlan) :
    Event.executorFlush
      ∉ (iree_hal_task_queue_submit_batch tail base batch plan).events := by
  obtain ⟨rrec, rclone, fstat, wrec, wclone, iok⟩ := plan
  cases rrec <;> cases rclone <;> cases fstat <;> cases wrec <;>
    cases wclone <;> cases iok <;>
    by_cases hw : 0 < batch.wait_semaphores.count <;>
    simp [iree_hal_task_queue_submit_batch,
      iree_hal_task_queue_retire_cmd_allocate, retire_cmd_allocate_ok,
      iree_hal_task_queue_wait_cmd_allocate, wait_cmd_allocate_ok,
      iree_hal_task_queue_issue_cmd_allocate, semaphore_list_clone_ok,
      semaphore_list_clone_fail, hw, Status.isOk, iree_arena_deinit,
      release_records, clone_loop_events, flush_not_mem_release]

theorem submit_batches_loop_no_flush (bps : List (Batch × FailPlan)) :
    ∀ tail base,
      Event.executorFlush ∉ (submit_batches_loop tail base bps).2.2.2 := by
  induction bps with
  | nil =>
    intro tail base
    simp [submit_batches_loop]
  | cons bp rest ih =>
    intro tail base
    obtain ⟨b, p⟩ := bp
    by_cases h : (iree_hal_task_queue_submit_batch tail base b p).status.isOk
      = true
    · simp [submit_batches_loop, h, submit_batch_no_flush, ih]
    · simp [submit_batches_loop, h, submit_batch_no_flush]

theorem submit_loop_append_fail (pre : List (Batch × FailPlan)) :
    ∀ tail base post b p tail2 base2 evs2,
    submit_batches_loop tail base pre = (Status.ok, tail2, base2, evs2) →
    (iree_hal_task_queue_submit_batch tail2 base2 b p).status.isOk = false →
    submit_batches_loop tail base (pre ++ (b, p) :: post)
      = ((iree_hal_task_queue_submit_batch tail2 base2 b p).status,
         (iree_hal_task_queue_submit_batch tail2 base2 b p).tail_issue_task,
         base2 + 4,
         evs2 ++ (iree_hal_task_queue_submit_batch tail2 base2 b p).events) := by
  induction pre with
  | nil =>
    intro tail base post b p tail2 base2 evs2 hok hfail
    simp only [submit_batches_loop, Prod.mk.injEq, true_and] at hok
    obtain ⟨h1, h2, h3⟩ := hok
    subst h1
    subst h2
    subst h3
    have hfalse : ¬((iree_hal_task_queue_submit_batch tail base b p).status.isOk
        = true) := by simp [hfail]
    simp [submit_batches_loop, hfalse]
  | cons q rest ih =>
    intro tail base post b p tail2 base2 evs2 hok hfail
    obtain ⟨qb, qp⟩ := q
    by_cases h1 : (iree_hal_task_queue_submit_batch tail base qb qp).status.isOk
      = true
    · rw [List.cons_append]
      simp only [submit_batches_loop, h1, if_true, Prod.mk.injEq] at hok ⊢
      obtain ⟨hs, ht, hb, he⟩ := hok
      have hr : submit_batches_loop
          (iree_hal_task_queue_submit_batch tail base qb qp).tail_issue_task
          (base + 4) rest
          = (Status.ok, tail2, base2,
             (submit_batches_loop
               (iree_hal_task_queue_submit_batch tail base qb qp).tail_issue_task
               (base + 4) rest).2.2.2) := by
        rw [← hs, ← ht, ← hb]
      have := ih _ _ post b p tail2 base2 _ hr hfail
      rw [this]
      refine ⟨rfl, rfl, rfl, ?_⟩
      rw [← he, List.append_assoc]
    · exfalso
      simp only [submit_batches_loop] at hok
      rw [if_neg h1] at hok
      simp only [Prod.mk.injEq] at hok
      rw [hok.1] at h1
      exact h1 rfl

/-- Claim C9: submit processes its batches in order; the first SubmitBatch
that fails makes submit return that error immediately, without processing
the later batches and without calling executor flush, while on an all-ok
run the executor is flushed exactly once, after the last batch. -/
theorem claim_C9_submit_stops_at_first_error (tail : Option Nat) (base : Nat)
    (bps : List (Batch × FailPlan)) :
    (∀ pre post b p tail2 base2 evs2,
        bps = pre ++ (b, p) :: post →
        submit_batches_loop tail base pre = (Status.ok, tail2, base2, evs2) →
        (iree_hal_task_queue_submit_batch tail2 base2 b p).status.isOk
          = false →
        iree_hal_task_queue_submit tail base bps
          = ((iree_hal_task_queue_submit_batch tail2 base2 b p).status,
             (iree_hal_task_queue_submit_batch tail2 base2 b p).tail_issue_task,
             evs2 ++ (iree_hal_task_queue_submit_batch tail2 base2 b p).events)
        ∧ Event.executorFlush
            ∉ (iree_hal_task_queue_submit tail base bps).2.2)
    ∧ ((iree_hal_task_queue_submit tail base bps).1 = Status.ok →
        ((iree_hal_task_queue_submit tail base bps).2.2).count
            Event.executorFlush = 1) := by
  constructor
  · intro pre post b p tail2 base2 evs2 hsplit hpre hfail
    subst hsplit
    have hloop := submit_loop_append_fail pre tail base post b p tail2 base2
      evs2 hpre hfail
    have hevs2 : Event.executorFlush ∉ evs2 := by
      have h := submit_batches_loop_no_flush pre tail base
      rw [hpre] at h
      simpa using h
    have hevsb := submit_batch_no_flush tail2 base2 b p
    constructor
    · simp only [iree_hal_task_queue_submit]
      rw [hloop]
      simp [hfail]
    · simp only [iree_hal_task_queue_submit]
      rw [hloop]
      simp [hfail, hevs2, hevsb]
  · intro hok
    simp only [iree_hal_task_queue_submit] at hok ⊢
    by_cases h : (submit_batches_loop tail base bps).1.isOk = true
    · rw [if_pos h]
      rw [if_pos h] at hok
      simp only [List.count_append,
        List.count_eq_zero.mpr (submit_batches_loop_no_flush bps tail base)]
      simp [List.count_cons]
    · rw [if_neg h] at hok
      rw [hok] at h
      exact absurd rfl h

/-- Closed-form check of claim C9: a successful empty batch followed by a
batch whose retire-record allocation fails; submit returns the error with
no flush, and submitting the good batch alone flushes exactly once. -/
theorem claim_C9_submit_stops_at_first_error_witness :
    (iree_hal_task_queue_submit none 0
        [({ wait_semaphores := { count := 0, semaphores := [],
                                 payload_values := [] },
            signal_semaphores := { count := 0, semaphores := [],
                                   payload_values := [] },
            command_buffer_count := 0, command_buffers := [] }, allOkPlan),
         ({ wait_semaphores := { count := 0, semaphores := [],
                                 payload_values := [] },
            signal_semaphores := { count := 0, semaphores := [],
                                   payload_values := [] },
            command_buffer_count := 0, command_buffers := [] },
          { retire_record_alloc_ok := false, retire_clone_alloc_ok := true,
            fence_status := Status.ok, wait_record_alloc_ok := true,
            wait_clone_alloc_ok := true, issue_alloc_ok := true })]
      = (Status.err 1, some (issueTaskId 0),
         [Event.executorSubmit (issueTaskId 0), Event.arenaDeinit]))
    ∧ ((iree_hal_task_queue_submit none 0
        [({ wait_semaphores := { count := 0, semaphores := [],
                                 payload_values := [] },
            signal_semaphores := { count := 0, semaphores := [],
                                   payload_values := [] },
            command_buffer_count := 0, command_buffers := [] },
          allOkPlan)]).2.2).count Event.executorFlush = 1 := by
  constructor
  · have h := (claim_C9_submit_stops_at_first_error none 0
      [({ wait_semaphores := { count := 0, semaphores := [],
                               payload_values := [] },
          signal_semaphores := { count := 0, semaphores := [],
                                 payload_values := [] },
          command_buffer_count := 0, command_buffers := [] }, allOkPlan),
       ({ wait_semaphores := { count := 0, semaphores := [],
                               payload_values := [] },
          signal_semaphores := { count := 0, semaphores := [],
                                 payload_values := [] },
          command_buffer_count := 0, command_buffers := [] },
        { retire_record_alloc_ok := false, retire_clone_alloc_ok := true,
          fence_status := Status.ok, wait_record_alloc_ok := true,
          wait_clone_alloc_ok := true, issue_alloc_ok := true })]).1
      [({ wait_semaphores := { count := 0, semaphores := [],
                               payload_values := [] },
          signal_semaphores := { count := 0, semaphores := [],
                                 payload_values := [] },
          command_buffer_count := 0, command_buffers := [] }, allOkPlan)]
      []
      { wait_semaphores := { count := 0, semaphores := [],
                             payload_values := [] },
        signal_semaphores := { count := 0, semaphores := [],
                               payload_values := [] },
        command_buffer_count := 0, command_buffers := [] }
      { retire_record_alloc_ok := false, retire_clone_alloc_ok := true,
        fence_status := Status.ok, wait_record_alloc_ok := true,
        wait_clone_alloc_ok := true, issue_alloc_ok := true }
      (some (issueTaskId 0)) 4 [Event.executorSubmit (issueTaskId 0)]
      rfl (by decide) (by decide)
    rw [h.1]
    decide
  · exact (claim_C9_submit_stops_at_first_error none 0
      [({ wait_semaphores := { count := 0, semaphores := [],
                               payload_values := [] },
          signal_semaphores := { count := 0, semaphores := [],
                                 payload_values := [] },
          command_buffer_count := 0, command_buffers := [] },
        allOkPlan)]).2 (by decide)

theorem submit_batch_tail_update (tail : Option Nat) (base : Nat)
    (batch : Batch) (plan : FailPlan) :
    (iree_hal_task_queue_submit_batch tail base batch plan).tail_issue_task
      = if (iree_hal_task_queue_submit_batch tail base
            batch plan).status.isOk
        then some (issueTaskId base) else tail := by
  obtain ⟨rrec, rclone, fstat, wrec, wclone, iok⟩ := plan
  cases rrec <;> cases rclone <;> cases fstat <;> cases wrec <;>
    cases wclone <;> cases iok <;>
    by_cases hw : 0 < batch.wait_semaphores.count <;>
    simp [iree_hal_task_queue_submit_batch,
      iree_hal_task_queue_retire_cmd_allocate, retire_cmd_allocate_ok,
      iree_hal_task_queue_wait_cmd_allocate, wait_cmd_allocate_ok,
      iree_hal_task_queue_issue_cmd_allocate, semaphore_list_clone_ok,
      semaphore_list_clone_fail, hw, Status.isOk]

theorem queueStep_preserves (s : QueueState) (op : QueueOp)
    (s2 : QueueState) (hinv : QueueInv s)
    (hstep : queueStep s op = some s2) : QueueInv s2 := by
  obtain ⟨hbase, hclean, htail⟩ := hinv
  cases op with
  | submit batch plan =>
    simp only [queueStep, Option.some.injEq] at hstep
    subst hstep
    by_cases hok : (iree_hal_task_queue_submit_batch s.tail_issue_task
        s.next_base batch plan).status.isOk = true
    · refine ⟨?_, ?_, ?_⟩
      · intro t ht
        simp only [hok, if_true, List.mem_append, List.mem_singleton] at ht
        rcases ht with ht | ht
        · have := hbase t ht
          dsimp only
          omega
        · subst ht
          dsimp only [issueTaskId]
          omega
      · intro t ht
        simp only at ht
        simp only [hok, if_true, List.mem_append, List.mem_singleton]
        exact Or.inl (hclean t ht)
      · intro t ht
        simp only [submit_batch_tail_update, hok, if_true,
          Option.some.injEq] at ht
        subst ht
        constructor
        · simp [hok, List.mem_append]
        · intro hmem
          have h1 := hclean _ hmem
          have h2 := hbase _ h1
          simp only [issueTaskId] at h2
          omega
    · refine ⟨?_, ?_, ?_⟩
      · intro t ht
        simp only [hok, if_false] at ht
        have := hbase t ht
        dsimp only
        omega
      · intro t ht
        simp only at ht
        simp only [hok, if_false]
        exact hclean t ht
      · intro t ht
        simp only [submit_batch_tail_update, hok, if_false] at ht
        have h := htail t ht
        simp only [hok, if_false]
        exact h
  | cleanupIssue t0 =>
    simp only [queueStep] at hstep
    by_cases hc : t0 ∈ s.issued ∧ t0 ∉ s.cleaned
    · rw [if_pos hc] at hstep
      have heq := Option.some.inj hstep
      subst heq
      refine ⟨hbase, ?_, ?_⟩
      · intro t ht
        simp only [List.mem_append, List.mem_singleton] at ht
        rcases ht with ht | ht
        · exact hclean t ht
        · subst ht
          exact hc.1
      · intro t ht
        simp only [iree_hal_task_queue_issue_cmd_cleanup] at ht
        by_cases hteq : s.tail_issue_task = some t0
        · rw [if_pos hteq] at ht
          exact absurd ht (by simp)
        · rw [if_neg hteq] at ht
          have h := htail t ht
          refine ⟨h.1, ?_⟩
          simp only [List.mem_append, List.mem_singleton]
          rintro (hmem | hmem)
          · exact h.2 hmem
          · subst hmem
            rw [ht] at hteq
            exact hteq rfl
    · rw [if_neg hc] at hstep
      exact absurd hstep (by simp)

theorem queueRun_preserves (ops : List QueueOp) :
    ∀ s s2, QueueInv s → queueRun s ops = some s2 → QueueInv s2 := by
  induction ops with
  | nil =>
    intro s s2 h hrun
    simp only [queueRun, Option.some.injEq] at hrun
    subst hrun
    exact h
  | cons op rest ih =>
    intro s s2 h hrun
    simp only [queueRun] at hrun
    cases hstep : queueStep s op with
    | none =>
      rw [hstep] at hrun
      exact absurd hrun (by simp)
    | some s1 =>
      rw [hstep] at hrun
      exact ih s1 s2 (queueStep_preserves s op s1 h hstep) hrun

/-- Claim C3: in every reachable queue state, tail_issue_task is either
null or points to an issue task that was created and whose cleanup has not
yet executed; and a cleanup step of issue task t0 sets tail_issue_task to
null exactly when it equals t0, leaving it unchanged otherwise — so the
cleanup of an older issue task never nulls a newer tail. -/
theorem claim_C3_tail_issue_invariant (ops : List QueueOp) (s : QueueState)
    (hrun : queueRun queueInit ops = some s) :
    (∀ t, s.tail_issue_task = some t → t ∈ s.issued ∧ t ∉ s.cleaned)
    ∧ (∀ t0 s2, queueStep s (QueueOp.cleanupIssue t0) = some s2 →
        ((s2.tail_issue_task = none ∧ s.tail_issue_task ≠ none)
            ↔ s.tail_issue_task = some t0)
        ∧ (s.tail_issue_task ≠ some t0 →
            s2.tail_issue_task = s.tail_issue_task)) := by
  have hinit : QueueInv queueInit := by
    refine ⟨?_, ?_, ?_⟩ <;> simp [queueInit]
  have hinv : QueueInv s := queueRun_preserves ops queueInit s hinit hrun
  refine ⟨hinv.2.2, ?_⟩
  intro t0 s2 hstep
  simp only [queueStep] at hstep
  by_cases hc : t0 ∈ s.issued ∧ t0 ∉ s.cleaned
  · rw [if_pos hc] at hstep
    have heq := Option.some.inj hstep
    subst heq
    constructor
    · constructor
      · rintro ⟨h1, h2⟩
        by_cases ht : s.tail_issue_task = some t0
        · exact ht
        · exfalso
          simp only [iree_hal_task_queue_issue_cmd_cleanup] at h1
          rw [if_neg ht] at h1
          exact h2 h1
      · intro ht
        refine ⟨?_, ?_⟩
        · simp [iree_hal_task_queue_issue_cmd_cleanup, ht]
        · rw [ht]
          simp
    · intro ht
      simp [iree_hal_task_queue_issue_cmd_cleanup, ht]
  · rw [if_neg hc] at hstep
    exact absurd hstep (by simp)

/-- Closed-form check of claim C3: after one successful submission the tail
points to issue task 3, which is created and not cleaned; cleaning task 3
nulls the tail. -/
theorem claim_C3_tail_issue_invariant_witness :
    (3 ∈ ({ tail_issue_task := some 3, next_base := 4, issued := [3],
            cleaned := [] } : QueueState).issued
      ∧ 3 ∉ ({ tail_issue_task := some 3, next_base := 4, issued := [3],
               cleaned := [] } : QueueState).cleaned)
    ∧ ({ tail_issue_task := none, next_base := 4, issued := [3],
         cleaned := [3] } : QueueState).tail_issue_task = none
    ∧ ({ tail_issue_task := some 3, next_base := 4, issued := [3],
         cleaned := [] } : QueueState).tail_issue_task ≠ none := by
  have h := claim_C3_tail_issue_invariant
    [QueueOp.submit
      { wait_semaphores := { count := 0, semaphores := [],
                             payload_values := [] },
        signal_semaphores := { count := 0, semaphores := [],
                               payload_values := [] },
        command_buffer_count := 0, command_buffers := [] }
      allOkPlan]
    { tail_issue_task := some 3, next_base := 4, issued := [3],
      cleaned := [] }
    (by decide)
  have h2 := h.2 3
    { tail_issue_task := none, next_base := 4, issued := [3],
      cleaned := [3] }
    (by decide)
  exact ⟨h.1 3 rfl, (h2.1.mpr rfl).1, (h2.1.mpr rfl).2⟩
